import Mathlib

/-!
Verification of the uniformization engine of `siteshs.py` (historiquePannes):
a shallow embedding of the per-operator uniformization pipeline, the
postal/INSEE code normalization block, the voice/data aggregate synthesis,
the per-field reformatting helper, the dataset merge and the GeoJSON export.

Machine conventions of the embedding:
* pandas NaN / missing values are `Option.none`;
* a Python exception inside a modelled region is `Option.none` at the
  granularity at which the source catches it;
* dataframes are column-name lists plus rows of (key, optional value) pairs.
-/

namespace SitesHS

/-! ## String utilities (Python `str.zfill(5)`, `str[0:2]`) -/

/-- Python `c in "0123456789"`-style digit test. -/
def isDigitCh (c : Char) : Bool := '0' ≤ c && c ≤ '9'

/-- Character class `[0-9AB]` of the INSEE extraction regex. -/
def isDigitAB (c : Char) : Bool := isDigitCh c || c == 'A' || c == 'B'

/-- Python `s.zfill(5)`: left-pad with `'0'` to length 5. -/
def zfill5 (s : String) : String := ⟨List.replicate (5 - s.data.length) '0' ++ s.data⟩

/-- Python `s[0:2]`: the first two characters. -/
def prefix2 (s : String) : String := ⟨s.data.take 2⟩

/-! ## INSEE code extraction (line 161)

Python: `re.findall('([0-9]?[0-9AB][0-9][0-9][0-9]).*', d)[0]`.
`re.findall` returns the group of the leftmost match (the trailing `.*`
always matches and does not constrain the group); indexing `[0]` raises
`IndexError` when there is no match, which is modelled as `none`. -/

/-- Match `[0-9AB][0-9][0-9][0-9]` at the head of the character list,
returning the four matched characters. -/
def matchCore : List Char → Option (List Char)
  | a :: b :: c :: d :: _ =>
    if isDigitAB a && isDigitCh b && isDigitCh c && isDigitCh d then some [a, b, c, d] else none
  | _ => none

/-- Match `[0-9]?[0-9AB][0-9][0-9][0-9]` at the head of the character list
(greedy optional digit first, then backtracking, as the regex engine does). -/
def matchAt (l : List Char) : Option (List Char) :=
  match l with
  | [] => none
  | c :: rest =>
    if isDigitCh c then
      match matchCore rest with
      | some g => some (c :: g)
      | none => matchCore (c :: rest)
    else matchCore (c :: rest)

/-- Leftmost match of the INSEE pattern: try each start position left to right. -/
def findFirstCode : List Char → Option (List Char)
  | [] => none
  | c :: rest =>
    match matchAt (c :: rest) with
    | some g => some g
    | none => findFirstCode rest

/-- `re.findall('([0-9]?[0-9AB][0-9][0-9][0-9]).*', s)[0]`; `none` models the
`IndexError` raised when the pattern does not match anywhere in `s`. -/
def extractInsee (s : String) : Option String := (findFirstCode s.data).map (fun l => ⟨l⟩)

/-! ## Aggregate synthesis `collecte` (lines 116-117) -/

/-- Python `collecte(row)`: `'HS' if 'HS' in row else 'OK' if 'OK' in row else None`. -/
def collecte (row : List String) : Option String :=
  if row.contains "HS" then some "HS" else if row.contains "OK" then some "OK" else none

/-! ## Operator configuration and field reformatting (lines 104-114) -/

/-- One reformatting rule `{match: regex, format: template}` (the regex source
text and the template text; their semantics are abstract parameters below). -/
structure Rule where
  rmatch : String
  format : String
deriving DecidableEq

/-- The per-operator configuration fields the uniformization engine reads.
`structure_` is the source-column → canonical-column rename table;
`reformatting = none` models a config dict without a `'reformatting'` key. -/
structure OpConfig where
  code : String
  name : String
  structure_ : List (String × String)
  reformatting : Option (List (String × Rule))
deriving DecidableEq

/-- Python `reformat(op, field, value)`.  `rx pat v` models
`re.match(pat, v).groups()`: `none` both when the regex does not match
(`AttributeError` on `None.groups()`) and when matching raises; `fm tpl gs`
models `tpl.format(*gs)`: `none` when templating raises.  Every failure is
caught and returns the original `value`. -/
def reformat (rx : String → String → Option (List String))
    (fm : String → List String → Option String)
    (op : OpConfig) (field value : String) : String :=
  match op.reformatting with
  | none => value
  | some rules =>
    match rules.find? (fun p => p.1 == field) with
    | none => value
    | some fr =>
      if value == "" then value
      else
        match rx fr.2.rmatch value with
        | none => value
        | some gs => (fm fr.2.format gs).getD value

/-! ## Code normalization block (lines 158-170)

The whole block is wrapped in one `try/except`; an exception at any point
keeps all assignments already performed and skips the rest of the block. -/

/-- Canonical columns produced by the code-normalization block: each is
`none` when the corresponding `nf` column was never assigned (left NaN). -/
structure CodeState where
  canonInsee : Option (List String)
  canonPostal : Option (List Nat)
  canonDept : Option (List String)
deriving DecidableEq

/-- Column-wide INSEE extraction: the Python list comprehension at line 161
evaluates every element before assigning; one `IndexError` aborts it whole. -/
def allExtract : List String → Option (List String)
  | [] => some []
  | v :: vs =>
    match extractInsee v, allExtract vs with
    | some e, some es => some (e :: es)
    | _, _ => none

/-- Decimal parse of a digit string (the successful case of Python `int`). -/
def digitsToNat (l : List Char) : Option Nat :=
  if l ≠ [] && l.all isDigitCh then
    some (l.foldl (fun acc c => acc * 10 + (c.toNat - '0'.toNat)) 0)
  else none

/-- Python `int(value)` on one cell of `df['code_postal']`: NaN (`none`) and
non-numeric text raise, modelled as `none`; a plain digit string parses. -/
def postalToInt : Option String → Option Nat
  | none => none
  | some s => digitsToNat s.data

/-- Column-wide `astype(int)`: fails (raises) as soon as one cell fails. -/
def allToInt : List (Option String) → Option (List Nat)
  | [] => some []
  | v :: vs =>
    match postalToInt v, allToInt vs with
    | some n, some ns => some (n :: ns)
    | _, _ => none

/-- Lines 165-168: if a `code_postal` column exists, cast it to int and, when
the source declares no departement, derive `departement` from the zero-padded
postal code — overwriting any value assigned from `code_insee` just before.
A failing cast raises, which the enclosing `try` turns into keeping `s`. -/
def applyPostal (hasDept : Bool) (postalCol : Option (List (Option String)))
    (s : CodeState) : CodeState :=
  match postalCol with
  | none => s
  | some vs =>
    match allToInt vs with
    | none => s
    | some ns =>
      { s with canonPostal := some ns
               canonDept := if hasDept then s.canonDept
                            else some (ns.map (fun n => prefix2 (zfill5 (toString n)))) }

/-- Lines 159-170: the code-normalization `try` block.  `hasDept` is
`'departement' in df`; `inseeCol`/`postalCol` are the raw columns when
present.  An `IndexError` in the INSEE extraction aborts the whole block
before anything is assigned; a postal-cast failure keeps the INSEE
assignments. -/
def normalizeCodes (hasDept : Bool) (inseeCol : Option (List String))
    (postalCol : Option (List (Option String))) : CodeState :=
  match inseeCol with
  | none => applyPostal hasDept postalCol ⟨none, none, none⟩
  | some vs =>
    match allExtract vs with
    | none => ⟨none, none, none⟩
    | some es =>
      let canon := es.map zfill5
      applyPostal hasDept postalCol
        { canonInsee := some canon
          canonPostal := none
          canonDept := if hasDept then none else some (canon.map prefix2) }

/-! ## Canonical rows and the per-operator sort (line 179)

`nf.sort_values(by=['departement', 'code_insee', 'code_postal'])` sorts
lexicographically by the three keys with pandas' default
`na_position='last'`: a missing key compares greater than every defined
value.  The sort is modelled as a stable sort producing that order. -/

/-- One canonical record (one row of `nf`).  `detail` holds the
detail/duration columns, `equipment` the equipment passthrough columns
(their name sets live in `operators.py`, outside this repository's `src`,
so they are row-local association lists over parameter column lists). -/
structure CRow where
  date : String
  op_code : String
  operateur : String
  departement : Option String
  code_postal : Option Nat
  code_insee : Option String
  commune : Option String
  lat : Option String
  long : Option String
  voix : Option String
  data : Option String
  detail : List (String × Option String)
  equipment : List (String × Option String)
deriving DecidableEq

/-- Reinterpret an optional value with `none` as `⊤` (pandas NaN sorting
last under the default `na_position='last'`). -/
def wt {α : Type} (o : Option α) : WithTop α := o

/-- The sort key of line 179: (`departement`, `code_insee`, `code_postal`),
lexicographic, missing values greatest.  String keys are compared as their
character lists (Python's code-point lexicographic string order). -/
def keyOf (r : CRow) : Lex (Lex (WithTop (List Char) × WithTop (List Char)) × WithTop Nat) :=
  toLex (toLex (wt (r.departement.map String.data), wt (r.code_insee.map String.data)),
    wt r.code_postal)

/-- Row comparison used by `sort_values`. -/
def rowLE (a b : CRow) : Prop := keyOf a ≤ keyOf b

instance : DecidableRel rowLE := fun a b => inferInstanceAs (Decidable (keyOf a ≤ keyOf b))

instance : IsTotal CRow rowLE := ⟨fun a b => le_total (keyOf a) (keyOf b)⟩

instance : IsTrans CRow rowLE := ⟨fun _ _ _ h h' => le_trans h h'⟩

/-- `nf.sort_values(by=['departement', 'code_insee', 'code_postal'])`. -/
def sortRows (l : List CRow) : List CRow := List.insertionSort rowLE l

/-! ## Source dataframes and the uniformization pipeline (lines 120-184) -/

/-- One parsed source row: association list of column name to optional cell
value (`none` is pandas NaN). -/
abbrev SRow := List (String × Option String)

/-- One operator's parsed source table (`SourceRecordSet`). -/
structure SrcDF where
  columns : List String
  rows : List SRow
deriving DecidableEq

/-- Cell access `row[c]` for a column known to exist: `none` when the cell is
NaN or the key is missing from the row. -/
def getS (r : SRow) (c : String) : Option String :=
  ((r.find? (fun p => p.1 == c)).map Prod.snd).join

/-- `df.rename(columns=m)` on one column name: mapped when in the table,
kept otherwise. -/
def renameKey (m : List (String × String)) (c : String) : String :=
  ((m.find? (fun p => p.1 == c)).map Prod.snd).getD c

/-- Line 130: `df.rename(columns=op['structure'], inplace=True)`. -/
def renameDF (m : List (String × String)) (df : SrcDF) : SrcDF :=
  ⟨df.columns.map (renameKey m), df.rows.map (fun r => r.map (fun p => (renameKey m p.1, p.2)))⟩

/-- Assign a fresh column to every row (`df[c] = values`). -/
def addCol (df : SrcDF) (cname : String) (vals : List (Option String)) : SrcDF :=
  ⟨df.columns ++ [cname], (df.rows.zip vals).map (fun p => (cname, p.2) :: p.1)⟩

/-- Lines 92-101 `coords_conversion(df)`: the Lambert-93 → WGS84
reprojection itself is geodesy, taken as the abstract parameter `proj`
(whole-column, as `gpd.points_from_xy` is).  The body is wrapped in its own
`try/except`: a missing `x`/`y` column (`KeyError`) or a reprojection
failure leaves `df` unchanged. -/
def coordsConversion
    (proj : List (Option String × Option String) → Option (List (String × String)))
    (df : SrcDF) : SrcDF :=
  if df.columns.contains "x" && df.columns.contains "y" then
    match proj (df.rows.map (fun r => (getS r "x", getS r "y"))) with
    | some ll =>
      ⟨df.columns ++ ["lat", "long"],
       (df.rows.zip ll).map (fun p => ("lat", some p.2.1) :: ("long", some p.2.2) :: p.1)⟩
    | none => df
  else df

/-- Lines 153-156 (one of the two `if`s): when `target` is not a column,
synthesize it row-wise with `collecte` over the `subs` columns; a missing
sub-column makes the row lambda raise `KeyError`, which nothing catches
before the operator boundary — modelled as `none`. -/
def stepAgg (target : String) (subs : List String) (df : SrcDF) : Option SrcDF :=
  if df.columns.contains target then some df
  else if subs.all df.columns.contains then
    some (addCol df target
      (df.rows.map (fun r => collecte (subs.map (fun c => (getS r c).getD "")))))
  else none

/-- Line 153-154: `df['voix'] = df.apply(lambda s: collecte([s['voix2g'], s['voix3g'], s['voix4g']]), axis=1)`. -/
def stepVoix (df : SrcDF) : Option SrcDF := stepAgg "voix" ["voix2g", "voix3g", "voix4g"] df

/-- Line 155-156: `df['data'] = df.apply(lambda s: collecte([s['data3g'], s['data4g'], s['data5g']]), axis=1)`. -/
def stepData (df : SrcDF) : Option SrcDF := stepAgg "data" ["data3g", "data4g", "data5g"] df

/-- The detail/duration block of `nf`: per detail column, either the
reformatted value list or `none` (column left NaN, line 141). -/
abbrev DetailCols := List (String × Option (List String))

/-- Lines 137-141: each detail/duration column present in the source is
`fillna('')`-ed, stringified and reformatted per value; an absent column
stays entirely NaN. -/
def detailValsOf (rx : String → String → Option (List String))
    (fm : String → List String → Option String)
    (op : OpConfig) (detailCols : List String) (df : SrcDF) : DetailCols :=
  detailCols.map (fun f =>
    (f, if df.columns.contains f then
          some (df.rows.map (fun r => reformat rx fm op f ((getS r f).getD "")))
        else none))

/-- Column lookup in the uniform frame's detail block. -/
def getColVals (dv : DetailCols) (f : String) : Option (List String) :=
  ((dv.find? (fun p => p.1 == f)).map Prod.snd).join

/-- Column overwrite in the uniform frame's detail block. -/
def setColVals (dv : DetailCols) (f : String) (vs : List String) : DetailCols :=
  dv.map (fun p => if p.1 == f then (p.1, some vs) else p)

/-- Line 146: `min([e for e in [a, b] if e] or [''])` on two strings. -/
def dmin (a b : String) : String :=
  if a = "" then b else if b = "" then a else if a.data ≤ b.data then a else b

/-- Line 148: `max([e for e in [a, b] if e] or [''])` on two strings. -/
def dmax (a b : String) : String :=
  if a = "" then b else if b = "" then a else if a.data ≤ b.data then b else a

/-- Row-wise combination of two detail columns of `nf`; `none` when either
column is absent from the uniform frame (the row lambda then meets NaN and
raises, caught by the date block's own `try`). -/
def synthCol (dv : DetailCols) (a b : String) (comb : String → String → String) :
    Option (List String) :=
  match getColVals dv a, getColVals dv b with
  | some va, some vb => some ((va.zip vb).map (fun p => comb p.1 p.2))
  | _, _ => none

/-- Lines 143-150: synthesis of `debut`/`fin` from the per-technology date
columns, guarded by column presence in `df`; the block has its own
`try/except`, so a failure mid-block keeps what was already assigned and
skips the rest. -/
def dateStage (df : SrcDF) (dv : DetailCols) : DetailCols :=
  let needDebut := !df.columns.contains "debut" && df.columns.contains "debut_data"
      && df.columns.contains "debut_voix"
  let needFin := !df.columns.contains "fin" && df.columns.contains "fin_data"
      && df.columns.contains "fin_voix"
  if needDebut then
    match synthCol dv "debut_data" "debut_voix" dmin with
    | none => dv
    | some vs =>
      let dv1 := setColVals dv "debut" vs
      if needFin then
        match synthCol dv1 "fin_data" "fin_voix" dmax with
        | none => dv1
        | some vs2 => setColVals dv1 "fin" vs2
      else dv1
  else if needFin then
    match synthCol dv "fin_data" "fin_voix" dmax with
    | none => dv
    | some vs2 => setColVals dv "fin" vs2
  else dv

/-- Line 161 input: `df['code_insee'].astype(str)` (NaN stringifies to
`"nan"`), when the column exists. -/
def inseeColOf (df : SrcDF) : Option (List String) :=
  if df.columns.contains "code_insee" then
    some (df.rows.map (fun r => (getS r "code_insee").getD "nan"))
  else none

/-- Line 166 input: the raw `code_postal` column, when it exists. -/
def postalColOf (df : SrcDF) : Option (List (Option String)) :=
  if df.columns.contains "code_postal" then some (df.rows.map (fun r => getS r "code_postal"))
  else none

/-- Line 172-173: `nf[col] = df.get(col)` — the whole column when present,
`None` otherwise. -/
def passCol (df : SrcDF) (c : String) : Option (List (Option String)) :=
  if df.columns.contains c then some (df.rows.map (fun r => getS r c)) else none

/-- Value of an optional column at row `i`. -/
def colIdx {α : Type} (c : Option (List α)) (i : Nat) : Option α :=
  c.bind (fun vs => vs[i]?)

/-- Value of an optional column of optional cells at row `i`. -/
def colIdxO (c : Option (List (Option String))) (i : Nat) : Option String :=
  (c.bind (fun vs => vs[i]?)).join

/-- Lines 120-182, `make_op_uniform(op)` up to `op['dataframe'] = nf` (the
CSV/JSON serializers of lines 181-182 are outside the modelled core).
`none` is an operator that produced no dataframe: an empty parse result
(line 124-126) or an exception caught at the operator boundary (line 183).
Modelled from the spec: the canonical column lists `detail_duree_columns`,
`equipment_columns` and `all_columns` live in `operators.py`, which is not
under `src/`; they are the parameters `detailCols`/`equipCols`, and the
canonical `voix`/`data` columns of the spec's canonical schema are routed
from the (source-supplied or synthesized) `df` columns of the same name. -/
def makeOpUniform (rx : String → String → Option (List String))
    (fm : String → List String → Option String)
    (proj : List (Option String × Option String) → Option (List (String × String)))
    (detailCols equipCols : List String)
    (op : OpConfig) (datename : String) (df0 : SrcDF) : Option (List CRow) :=
  if df0.rows.isEmpty then none
  else
    let df1 := renameDF op.structure_ df0
    let df2 := if df1.columns.contains "lat" && df1.columns.contains "long" then df1
               else coordsConversion proj df1
    let dv := dateStage df2 (detailValsOf rx fm op detailCols df2)
    match stepVoix df2 with
    | none => none
    | some df3 =>
      match stepData df3 with
      | none => none
      | some df4 =>
        let cs := normalizeCodes (df4.columns.contains "departement")
          (inseeColOf df4) (postalColOf df4)
        let rows := (List.range df4.rows.length).map (fun i =>
          (⟨datename, op.code, op.name,
            colIdx cs.canonDept i,
            colIdx cs.canonPostal i,
            colIdx cs.canonInsee i,
            colIdxO (passCol df4 "commune") i,
            colIdxO (passCol df4 "lat") i,
            colIdxO (passCol df4 "long") i,
            colIdxO (passCol df4 "voix") i,
            colIdxO (passCol df4 "data") i,
            detailCols.map (fun f => (f, colIdx (getColVals dv f) i)),
            equipCols.map (fun c => (c, colIdxO (passCol df4 c) i))⟩ : CRow))
        some (sortRows rows)

/-- Line 194: `pd.concat([op['dataframe'] for op in operateurs if 'dataframe' in op])`
— operators without a dataframe contribute nothing; per-operator row order
is preserved.  (Line 196's NaN → None rewrite is the identity here, missing
values being `none` already.) -/
def unionAll (results : List (Option (List CRow))) : List CRow :=
  results.foldr (fun o acc => o.getD [] ++ acc) []

/-! ## GeoJSON export (lines 203-223) -/

/-- Column access on a merged canonical row, as `row[prop]` does on
`union_df`. -/
def crowGet (r : CRow) (p : String) : Option String :=
  if p == "date" then some r.date
  else if p == "op_code" then some r.op_code
  else if p == "operateur" then some r.operateur
  else if p == "departement" then r.departement
  else if p == "code_postal" then r.code_postal.map (fun n => toString n)
  else if p == "code_insee" then r.code_insee
  else if p == "commune" then r.commune
  else if p == "lat" then r.lat
  else if p == "long" then r.long
  else if p == "voix" then r.voix
  else if p == "data" then r.data
  else (((r.detail ++ r.equipment).find? (fun q => q.1 == p)).map Prod.snd).join

/-- One GeoJSON feature (lines 208-211): fixed `'Feature'`/`'Point'` tags,
the declared properties copied verbatim, coordinates `[long, lat]`. -/
structure Feature where
  ftype : String
  properties : List (String × Option String)
  gtype : String
  coordinates : List (Option String)
deriving DecidableEq

/-- The feature built for one row. -/
def featureOf (props : List String) (r : CRow) : Feature :=
  ⟨"Feature", props.map (fun p => (p, crowGet r p)), "Point",
   [crowGet r "long", crowGet r "lat"]⟩

/-- The whole feature collection (lines 204-214). -/
structure GeoJson where
  gjtype : String
  features : List Feature
deriving DecidableEq

/-- Lines 203-214: `df_to_geojson(df, properties)`. -/
def dfToGeojson (rows : List CRow) (props : List String) : GeoJson :=
  ⟨"FeatureCollection", rows.map (featureOf props)⟩

/-! ## Concrete sample data for witnesses and counterexamples -/

/-- Regex semantics that never matches (used where no reformatting occurs). -/
def rxNone : String → String → Option (List String) := fun _ _ => none

/-- Template semantics that always raises (used where no reformatting occurs). -/
def fmNone : String → List String → Option String := fun _ _ => none

/-- Reprojection that always fails (its input operators carry no `x`/`y`). -/
def projNone : List (Option String × Option String) → Option (List (String × String)) :=
  fun _ => none

/-- Sample operator A. -/
def cfgA : OpConfig := ⟨"opa", "OpA", [], none⟩

/-- Sample operator B. -/
def cfgB : OpConfig := ⟨"opb", "OpB", [], none⟩

/-- Source table of operator A: one outage row in departement 95. -/
def dfOpA : SrcDF :=
  ⟨["voix", "data", "code_postal"],
   [[("voix", some "HS"), ("data", some "OK"), ("code_postal", some "95000")]]⟩

/-- Source table of operator B: one outage row in departement 01. -/
def dfOpB : SrcDF :=
  ⟨["voix", "data", "code_postal"],
   [[("voix", some "OK"), ("data", some "HS"), ("code_postal", some "1000")]]⟩

/-- A source table with neither a `voix` column nor the `voix2g/3g/4g`
sub-columns: row access `s['voix2g']` raises `KeyError`, uncaught before the
operator boundary. -/
def dfFail : SrcDF := ⟨["a"], [[("a", some "1")]]⟩

/-- The canonical row operator A produces from `dfOpA`. -/
def rowA95 : CRow :=
  ⟨"d", "opa", "OpA", some "95", some 95000, none, none, none, none, some "HS", some "OK", [], []⟩

/-- The canonical row operator B produces from `dfOpB`. -/
def rowB01 : CRow :=
  ⟨"d", "opb", "OpB", some "01", some 1000, none, none, none, none, some "OK", some "HS", [], []⟩

/-- A canonical row with a defined departement. -/
def rowDef75 : CRow :=
  ⟨"", "", "", some "75", none, none, none, none, none, none, none, [], []⟩

/-- A canonical row with every sort key absent. -/
def rowAbsent : CRow :=
  ⟨"", "", "", none, none, none, none, none, none, none, none, [], []⟩

/-- A source table exercising the voice/data aggregate synthesis. -/
def dfAgg : SrcDF :=
  ⟨["voix2g", "voix3g", "voix4g", "data3g", "data4g", "data5g"],
   [[("voix2g", some "HS"), ("voix3g", some "OK"), ("voix4g", none),
     ("data3g", none), ("data4g", some "OK"), ("data5g", none)]]⟩

/-- Sample regex semantics: pattern `"P"` matches exactly `"ab"`, capturing
its two characters in swapped order. -/
def rx1 : String → String → Option (List String) :=
  fun p v => if p == "P" && v == "ab" then some ["b", "a"] else none

/-- Sample template semantics: template `"T"` concatenates the groups. -/
def fm1 : String → List String → Option String :=
  fun t gs => if t == "T" then some (String.join gs) else none

/-- An operator config with one reformatting rule, on field `"f"`. -/
def cfgR : OpConfig := ⟨"c", "n", [], some [("f", ⟨"P", "T"⟩)]⟩

/-! ## Helper lemmas -/

theorem matchCore_length {l g : List Char} (h : matchCore l = some g) : g.length = 4 := by
  unfold matchCore at h
  split at h
  · split at h
    · injection h with h'
      subst h'
      rfl
    · cases h
  · cases h

theorem matchAt_length {l g : List Char} (h : matchAt l = some g) :
    g.length = 4 ∨ g.length = 5 := by
  unfold matchAt at h
  split at h
  · cases h
  · split at h
    · split at h
      · injection h with h'
        subst h'
        right
        simp [matchCore_length (by assumption)]
      · exact Or.inl (matchCore_length h)
    · exact Or.inl (matchCore_length h)

theorem findFirstCode_length {l g : List Char} (h : findFirstCode l = some g) :
    g.length = 4 ∨ g.length = 5 := by
  induction l with
  | nil => cases h
  | cons c rest ih =>
    unfold findFirstCode at h
    split at h
    · injection h with h'
      subst h'
      exact matchAt_length (by assumption)
    · exact ih h

theorem extractInsee_length {s : String} {g : String} (h : extractInsee s = some g) :
    g.length ≤ 5 := by
  unfold extractInsee at h
  rcases hf : findFirstCode s.data with _ | l
  · rw [hf] at h
    cases h
  · rw [hf] at h
    injection h with h'
    subst h'
    have hl := findFirstCode_length hf
    show l.length ≤ 5
    rcases hl with h4 | h5
    · omega
    · omega

theorem zfill5_length {s : String} (h : s.length ≤ 5) : (zfill5 s).length = 5 := by
  have h' : s.data.length ≤ 5 := h
  show (List.replicate (5 - s.data.length) '0' ++ s.data).length = 5
  rw [List.length_append, List.length_replicate]
  omega

/-! ## Claim C1 -/

/-- C1, counterexample.  The claim says that with both a `code_insee` and a
`code_postal` column and no source departement, the canonical departement is
the 2-character prefix of the zero-padded `code_insee`.  On the code, the
`code_postal` branch (lines 165-168) runs after the `code_insee` branch and
overwrites `nf['departement']`: with `code_insee = "2A004"` and
`code_postal = "20000"` the result is `"20"`, not `"2A"`. -/
theorem C1_counterexample :
    (normalizeCodes false (some ["2A004"]) (some [some "20000"])).canonDept = some ["20"] ∧
    (normalizeCodes false (some ["2A004"]) (some [some "20000"])).canonDept ≠ some ["2A"] := by
  decide

/-- C1, amended.  When the source supplies no departement column:
with both columns present and both conversions succeeding, `departement` is
derived from the zero-padded `code_postal` (the postal derivation overwrites
the INSEE one); the INSEE-derived prefix is kept only when no `code_postal`
column exists; with only a `code_postal` column the postal derivation
applies. -/
theorem C1_amended_correct (vs es : List String) (ps : List (Option String)) (ns : List Nat)
    (h1 : allExtract vs = some es) (h2 : allToInt ps = some ns) :
    (normalizeCodes false (some vs) (some ps)).canonDept
      = some (ns.map (fun n => prefix2 (zfill5 (toString n)))) ∧
    (normalizeCodes false (some vs) none).canonDept = some ((es.map zfill5).map prefix2) ∧
    (normalizeCodes false none (some ps)).canonDept
      = some (ns.map (fun n => prefix2 (zfill5 (toString n)))) := by
  refine ⟨?_, ?_, ?_⟩ <;> simp [normalizeCodes, applyPostal, h1, h2]

/-- C1, witness: `code_insee = "75056"`, `code_postal = "75001"` — on this
input both derivations agree on `"75"`, matching the spec's example. -/
theorem C1_amended_witness :
    (normalizeCodes false (some ["75056"]) (some [some "75001"])).canonDept = some ["75"] ∧
    (normalizeCodes false (some ["75056"]) none).canonDept = some ["75"] ∧
    (normalizeCodes false none (some [some "75001"])).canonDept = some ["75"] := by
  have h := C1_amended_correct ["75056"] ["75056"] [some "75001"] [75001]
    (by decide) (by decide)
  refine ⟨?_, ?_, ?_⟩
  · rw [h.1]
    decide
  · rw [h.2.1]
    decide
  · rw [h.2.2]
    decide

/-! ## Claim C2 -/

/-- C2, counterexample.  The claim says a raw `code_insee` with no
pattern match yields the empty string, and that raw `"750"` yields canonical
`"00750"`.  On the code, `re.findall(...)[0]` raises `IndexError` when
nothing matches, and `"750"` (3 characters) cannot match the 4-to-5
character pattern: the whole code block aborts and the canonical
`code_insee` is absent, never `""` and never `"00750"`. -/
theorem C2_counterexample :
    extractInsee "750" = none ∧
    (normalizeCodes false (some ["750"]) none).canonInsee ≠ some ["00750"] ∧
    normalizeCodes false (some ["750"]) none = ⟨none, none, none⟩ ∧
    extractInsee "abc" = none := by
  decide

/-- C2, amended.  For every raw value on which the pattern
`[0-9]?[0-9AB][0-9][0-9][0-9]` matches somewhere, the leftmost match is
extracted and zero-padded to 5 characters to form the canonical
`code_insee`; a raw value with no match (such as `"750"` or a value with no
digits) raises `IndexError`, aborting the code-normalization block, so every
canonical code column stays absent. -/
theorem C2_amended_correct (s g : String) (h : extractInsee s = some g) :
    (normalizeCodes false (some [s]) none).canonInsee = some [zfill5 g] ∧
    (zfill5 g).length = 5 ∧
    (∀ t, extractInsee t = none → normalizeCodes false (some [t]) none = ⟨none, none, none⟩) := by
  refine ⟨?_, ?_, ?_⟩
  · simp [normalizeCodes, applyPostal, allExtract, h]
  · have h45 : g.length ≤ 5 := extractInsee_length h
    exact zfill5_length h45
  · intro t ht
    simp [normalizeCodes, allExtract, ht]

/-- C2, witness: raw `"2A004"` extracts as itself and zero-pads to the
5-character canonical `"2A004"`; raw `"xyz"` has no match and leaves the
block without assignments. -/
theorem C2_amended_witness :
    (normalizeCodes false (some ["2A004"]) none).canonInsee = some [zfill5 "2A004"] ∧
    (zfill5 "2A004").length = 5 ∧
    normalizeCodes false (some ["xyz"]) none = ⟨none, none, none⟩ := by
  have h := C2_amended_correct "2A004" "2A004" (by decide)
  exact ⟨h.1, h.2.1, h.2.2 "xyz" (by decide)⟩

/-! ## Claim C3 -/

theorem zip_self_map {α β : Type} (l : List α) (g : α → β) :
    l.zip (l.map g) = l.map (fun a => (a, g a)) := by
  induction l with
  | nil => rfl
  | cons a t ih => simp [List.zip_cons_cons, ih]

theorem addCol_rows (df : SrcDF) (cname : String) (g : SRow → Option String) :
    (addCol df cname (df.rows.map g)).rows = df.rows.map (fun r => (cname, g r) :: r) := by
  show ((df.rows.zip (df.rows.map g)).map (fun p => (cname, p.2) :: p.1))
      = df.rows.map (fun r => (cname, g r) :: r)
  rw [zip_self_map]
  simp [List.map_map, Function.comp]

theorem getS_cons_self (c : String) (v : Option String) (r : SRow) :
    getS ((c, v) :: r) c = v := by
  simp [getS, List.find?]

theorem stepAgg_derive (target : String) (subs : List String) (df : SrcDF)
    (h1 : df.columns.contains target = false)
    (h2 : subs.all df.columns.contains = true) :
    stepAgg target subs df =
      some (addCol df target
        (df.rows.map (fun r => collecte (subs.map (fun c => (getS r c).getD ""))))) := by
  unfold stepAgg
  rw [h1, h2]
  simp

/-- C3.  When the source lacks a direct `voix` (resp. `data`) column but has
the three sub-columns, the pipeline synthesizes for every row the aggregate
from `{voix2g, voix3g, voix4g}` (resp. `{data3g, data4g, data5g}`): `"HS"`
if any sub-value equals `"HS"`, else `"OK"` if any equals `"OK"`, else
absent; when the source supplies the column directly, the step leaves the
table unchanged (no derivation). -/
theorem C3_aggregate_synthesis (df : SrcDF) :
    (df.columns.contains "voix" = true → stepVoix df = some df) ∧
    (df.columns.contains "data" = true → stepData df = some df) ∧
    (df.columns.contains "voix" = false →
      (["voix2g", "voix3g", "voix4g"].all df.columns.contains) = true →
      ∃ df', stepVoix df = some df' ∧ df'.rows.length = df.rows.length ∧
        ∀ (i : Nat) (r : SRow), df.rows[i]? = some r →
          ∃ r', df'.rows[i]? = some r' ∧
            getS r' "voix" =
              (let vals := ["voix2g", "voix3g", "voix4g"].map (fun c => (getS r c).getD "")
               if vals.contains "HS" then some "HS"
               else if vals.contains "OK" then some "OK" else none)) ∧
    (df.columns.contains "data" = false →
      (["data3g", "data4g", "data5g"].all df.columns.contains) = true →
      ∃ df', stepData df = some df' ∧ df'.rows.length = df.rows.length ∧
        ∀ (i : Nat) (r : SRow), df.rows[i]? = some r →
          ∃ r', df'.rows[i]? = some r' ∧
            getS r' "data" =
              (let vals := ["data3g", "data4g", "data5g"].map (fun c => (getS r c).getD "")
               if vals.contains "HS" then some "HS"
               else if vals.contains "OK" then some "OK" else none)) := by
  have main : ∀ (target : String) (subs : List String),
      df.columns.contains target = false → (subs.all df.columns.contains) = true →
      ∃ df', stepAgg target subs df = some df' ∧ df'.rows.length = df.rows.length ∧
        ∀ (i : Nat) (r : SRow), df.rows[i]? = some r →
          ∃ r', df'.rows[i]? = some r' ∧
            getS r' target = collecte (subs.map (fun c => (getS r c).getD "")) := by
    intro target subs h1 h2
    refine ⟨addCol df target
        (df.rows.map (fun r => collecte (subs.map (fun c => (getS r c).getD "")))),
      stepAgg_derive target subs df h1 h2, ?_, ?_⟩
    · rw [addCol_rows]
      simp
    · intro i r hr
      refine ⟨(target, collecte (subs.map (fun c => (getS r c).getD ""))) :: r, ?_, ?_⟩
      · rw [addCol_rows, List.getElem?_map, hr]
        rfl
      · exact getS_cons_self _ _ _
  refine ⟨?_, ?_, ?_, ?_⟩
  · intro h
    unfold stepVoix stepAgg
    rw [h]
    rfl
  · intro h
    unfold stepData stepAgg
    rw [h]
    rfl
  · intro h1 h2
    obtain ⟨df', hs, hl, hrow⟩ := main "voix" ["voix2g", "voix3g", "voix4g"] h1 h2
    refine ⟨df', hs, hl, ?_⟩
    intro i r hr
    obtain ⟨r', hr', hv⟩ := hrow i r hr
    exact ⟨r', hr', by rw [hv]; rfl⟩
  · intro h1 h2
    obtain ⟨df', hs, hl, hrow⟩ := main "data" ["data3g", "data4g", "data5g"] h1 h2
    refine ⟨df', hs, hl, ?_⟩
    intro i r hr
    obtain ⟨r', hr', hv⟩ := hrow i r hr
    exact ⟨r', hr', by rw [hv]; rfl⟩

/-- C3, witness: on `dfAgg` (sub-values `{HS, OK, NaN}` for voice,
`{NaN, OK, NaN}` for data), the synthesized row has `voix = "HS"` and
`data = "OK"`. -/
theorem C3_witness :
    (∃ df', stepVoix dfAgg = some df' ∧
      ∃ r', df'.rows[0]? = some r' ∧ getS r' "voix" = some "HS") ∧
    (∃ df', stepData dfAgg = some df' ∧
      ∃ r', df'.rows[0]? = some r' ∧ getS r' "data" = some "OK") := by
  constructor
  · obtain ⟨df', hs, _, hrow⟩ := (C3_aggregate_synthesis dfAgg).2.2.1 (by decide) (by decide)
    obtain ⟨r', hr', hv⟩ := hrow 0
      [("voix2g", some "HS"), ("voix3g", some "OK"), ("voix4g", none),
       ("data3g", none), ("data4g", some "OK"), ("data5g", none)] (by decide)
    refine ⟨df', hs, r', hr', ?_⟩
    rw [hv]
    decide
  · obtain ⟨df', hs, _, hrow⟩ := (C3_aggregate_synthesis dfAgg).2.2.2 (by decide) (by decide)
    obtain ⟨r', hr', hv⟩ := hrow 0
      [("voix2g", some "HS"), ("voix3g", some "OK"), ("voix4g", none),
       ("data3g", none), ("data4g", some "OK"), ("data5g", none)] (by decide)
    refine ⟨df', hs, r', hr', ?_⟩
    rw [hv]
    decide

/-! ## Claim C4 -/

/-- C4, counterexample.  The claim says rows with absent sort keys are
ordered before all rows with defined keys.  `sort_values` defaults to
`na_position='last'`: sorting a defined-departement row and an
absent-departement row places the absent one last, not first. -/
theorem C4_counterexample :
    sortRows [rowAbsent, rowDef75] = [rowDef75, rowAbsent] ∧
    sortRows [rowAbsent, rowDef75] ≠ [rowAbsent, rowDef75] := by
  decide

/-- C4, amended.  Within each operator's canonical record set, rows are
sorted by the key triple (`departement`, `code_insee`, `code_postal`) —
the output is ordered under the key comparison and is a permutation of the
input — and rows whose sort keys are absent are ordered AFTER all rows with
defined key values (pandas default `na_position='last'`). -/
theorem C4_amended_correct (l : List CRow) :
    List.Sorted rowLE (sortRows l) ∧ List.Perm (sortRows l) l ∧
    (∀ a b : CRow, a.departement = none → b.departement ≠ none → rowLE b a) := by
  refine ⟨List.sorted_insertionSort rowLE l, List.perm_insertionSort rowLE l, ?_⟩
  intro a b ha hb
  obtain ⟨s, hs⟩ := Option.ne_none_iff_exists.mp hb
  show keyOf b ≤ keyOf a
  unfold keyOf
  rw [ha, ← hs]
  refine le_of_lt ?_
  refine (Prod.Lex.lt_iff _ _).mpr (Or.inl ?_)
  refine (Prod.Lex.lt_iff _ _).mpr (Or.inl ?_)
  show wt ((some s).map String.data) < wt (Option.map String.data none)
  simp only [Option.map_some', Option.map_none']
  exact WithTop.coe_lt_top _

/-- C4, witness: sorting `[rowAbsent, rowDef75]` produces a sorted
permutation, and the defined-key row compares below the absent-key row. -/
theorem C4_amended_witness :
    List.Sorted rowLE (sortRows [rowAbsent, rowDef75]) ∧ rowLE rowDef75 rowAbsent := by
  obtain ⟨h1, _, h3⟩ := C4_amended_correct [rowAbsent, rowDef75]
  exact ⟨h1, h3 rowAbsent rowDef75 (by decide) (by decide)⟩

/-! ## Claim C5 -/

theorem makeOpUniform_sorted (rx : String → String → Option (List String))
    (fm : String → List String → Option String)
    (proj : List (Option String × Option String) → Option (List (String × String)))
    (dc ec : List String) (op : OpConfig) (d : String) (df : SrcDF) (rows : List CRow)
    (h : makeOpUniform rx fm proj dc ec op d df = some rows) : List.Sorted rowLE rows := by
  unfold makeOpUniform at h
  split at h
  · cases h
  · simp only [] at h
    split at h
    · cases h
    · split at h
      · cases h
      · injection h with h'
        subst h'
        exact List.sorted_insertionSort rowLE _

/-- C5, counterexample.  The claim says the merged dataset as a whole is
sorted by (`departement`, `code_insee`, `code_postal`).  `pd.concat`
(line 194) only concatenates the per-operator frames: running the pipeline
on operator A (departement 95) then operator B (departement 01) yields the
merged rows `[rowA95, rowB01]`, whose consecutive rows are out of order. -/
theorem C5_counterexample :
    unionAll [makeOpUniform rxNone fmNone projNone [] [] cfgA "d" dfOpA,
              makeOpUniform rxNone fmNone projNone [] [] cfgB "d" dfOpB]
      = [rowA95, rowB01] ∧
    ¬ rowLE rowA95 rowB01 := by
  constructor
  · decide
  · decide

/-- C5, amended.  The merged dataset is the concatenation of the
per-operator canonical record sets in operator order; each operator's block
is internally sorted by (`departement`, `code_insee`, `code_postal`) with
absent keys last, but the merged dataset as a whole is not re-sorted, so
consecutive rows across operator boundaries need not be ordered. -/
theorem C5_amended_correct (rx : String → String → Option (List String))
    (fm : String → List String → Option String)
    (proj : List (Option String × Option String) → Option (List (String × String)))
    (dc ec : List String) (oa ob : OpConfig) (d : String) (dfa dfb : SrcDF)
    (rowsA rowsB : List CRow)
    (hA : makeOpUniform rx fm proj dc ec oa d dfa = some rowsA)
    (hB : makeOpUniform rx fm proj dc ec ob d dfb = some rowsB) :
    unionAll [makeOpUniform rx fm proj dc ec oa d dfa,
              makeOpUniform rx fm proj dc ec ob d dfb] = rowsA ++ rowsB ∧
    List.Sorted rowLE rowsA ∧ List.Sorted rowLE rowsB := by
  refine ⟨?_, makeOpUniform_sorted rx fm proj dc ec oa d dfa rowsA hA,
    makeOpUniform_sorted rx fm proj dc ec ob d dfb rowsB hB⟩
  rw [hA, hB]
  simp [unionAll]

/-- C5, witness: the two concrete operators of the counterexample — each
block is a singleton (trivially sorted) and the merge is their
concatenation. -/
theorem C5_amended_witness :
    unionAll [makeOpUniform rxNone fmNone projNone [] [] cfgA "d" dfOpA,
              makeOpUniform rxNone fmNone projNone [] [] cfgB "d" dfOpB]
      = [rowA95] ++ [rowB01] ∧
    List.Sorted rowLE [rowA95] ∧ List.Sorted rowLE [rowB01] :=
  C5_amended_correct rxNone fmNone projNone [] [] cfgA cfgB "d" dfOpA dfOpB
    [rowA95] [rowB01] (by decide) (by decide)

/-! ## Claim C6 -/

/-- C6.  `reformat` is total (the embedding is a function — every failure
path yields a value): it returns `value` unchanged when the operator
declares no reformatting, when the field has no rule, when `value` is
empty, when the regex does not match (or matching raises), and when
templating raises; when the regex matches and templating succeeds it
returns the template instantiated with the captured groups. -/
theorem C6_reformat_total (rx : String → String → Option (List String))
    (fm : String → List String → Option String) (op : OpConfig) (field value : String) :
    (op.reformatting = none → reformat rx fm op field value = value) ∧
    (∀ rules, op.reformatting = some rules →
      rules.find? (fun p => p.1 == field) = none → reformat rx fm op field value = value) ∧
    (value = "" → reformat rx fm op field value = value) ∧
    (∀ rules fr, op.reformatting = some rules →
      rules.find? (fun p => p.1 == field) = some fr → value ≠ "" →
      ((rx fr.2.rmatch value = none → reformat rx fm op field value = value) ∧
       (∀ gs, rx fr.2.rmatch value = some gs → fm fr.2.format gs = none →
          reformat rx fm op field value = value) ∧
       (∀ gs out, rx fr.2.rmatch value = some gs → fm fr.2.format gs = some out →
          reformat rx fm op field value = out))) := by
  refine ⟨?_, ?_, ?_, ?_⟩
  · intro h
    simp [reformat, h]
  · intro rules h hf
    simp [reformat, h, hf]
  · intro h
    subst h
    unfold reformat
    rcases op.reformatting with _ | rules
    · rfl
    · rcases hf : rules.find? (fun p => p.1 == field) with _ | fr <;> simp [hf]
  · intro rules fr h hf hne
    have hbe : (value == "") = false := by
      simp [hne]
    refine ⟨?_, ?_, ?_⟩
    · intro hr
      simp [reformat, h, hf, hbe, hr]
    · intro gs hr hm
      simp [reformat, h, hf, hbe, hr, hm]
    · intro gs out hr hm
      simp [reformat, h, hf, hbe, hr, hm]

/-- C6, witness: with the sample rule on field `"f"` (pattern matches only
`"ab"`, swapping its characters), `"ab"` reformats to `"ba"`, a non-matching
`"zz"` is returned unchanged, and a field without a rule is returned
unchanged. -/
theorem C6_witness :
    reformat rx1 fm1 cfgR "f" "ab" = "ba" ∧
    reformat rx1 fm1 cfgR "f" "zz" = "zz" ∧
    reformat rx1 fm1 cfgR "g" "ab" = "ab" := by
  refine ⟨?_, ?_, ?_⟩
  · exact ((C6_reformat_total rx1 fm1 cfgR "f" "ab").2.2.2
      [("f", ⟨"P", "T"⟩)] ("f", ⟨"P", "T"⟩) (by decide) (by decide) (by decide)).2.2
      ["b", "a"] "ba" (by decide) (by decide)
  · exact ((C6_reformat_total rx1 fm1 cfgR "f" "zz").2.2.2
      [("f", ⟨"P", "T"⟩)] ("f", ⟨"P", "T"⟩) (by decide) (by decide) (by decide)).1
      (by decide)
  · exact (C6_reformat_total rx1 fm1 cfgR "g" "ab").2.1
      [("f", ⟨"P", "T"⟩)] (by decide) (by decide)

/-! ## Claim C7 -/

/-- C7.  An exception in one operator's uniformization is caught at the
operator boundary (the operator produces no dataframe, modelled `none`) and
the merge holds exactly the successful operators' rows: with A failing and
B succeeding, the merged dataset is exactly B's rows.  The run itself is a
total function of its inputs — no exception escapes past the boundary. -/
theorem C7_operator_isolation (rx : String → String → Option (List String))
    (fm : String → List String → Option String)
    (proj : List (Option String × Option String) → Option (List (String × String)))
    (dc ec : List String) (oa ob : OpConfig) (d : String) (dfa dfb : SrcDF)
    (rowsB : List CRow)
    (hA : makeOpUniform rx fm proj dc ec oa d dfa = none)
    (hB : makeOpUniform rx fm proj dc ec ob d dfb = some rowsB) :
    unionAll [makeOpUniform rx fm proj dc ec oa d dfa,
              makeOpUniform rx fm proj dc ec ob d dfb] = rowsB := by
  rw [hA, hB]
  simp [unionAll]

/-- C7, witness: `dfFail` has no `voix` column and no `voix2g/3g/4g`
sub-columns, so operator A's pipeline raises `KeyError` and is skipped;
the merge holds exactly operator B's row. -/
theorem C7_witness :
    unionAll [makeOpUniform rxNone fmNone projNone [] [] cfgA "d" dfFail,
              makeOpUniform rxNone fmNone projNone [] [] cfgB "d" dfOpB] = [rowB01] :=
  C7_operator_isolation rxNone fmNone projNone [] [] cfgA cfgB "d" dfFail dfOpB
    [rowB01] (by decide) (by decide)

/-! ## Claim C8 -/

/-- C8.  The uniformization pipeline is deterministic: it is a pure function
of the operator config, the run date and the parsed input, so two runs on
equal inputs produce equal canonical output. -/
theorem C8_pipeline_deterministic (rx : String → String → Option (List String))
    (fm : String → List String → Option String)
    (proj : List (Option String × Option String) → Option (List (String × String)))
    (dc ec : List String) (op : OpConfig) (d : String) (df df' : SrcDF)
    (h : df = df') :
    makeOpUniform rx fm proj dc ec op d df = makeOpUniform rx fm proj dc ec op d df' := by
  rw [h]

/-- C8, witness: two runs of operator A's pipeline on the same input
agree. -/
theorem C8_witness :
    makeOpUniform rxNone fmNone projNone [] [] cfgA "d" dfOpA =
      makeOpUniform rxNone fmNone projNone [] [] cfgA "d" dfOpA :=
  C8_pipeline_deterministic rxNone fmNone projNone [] [] cfgA "d" dfOpA dfOpA rfl

/-! ## Claim C9 -/

/-- C9.  For a merged dataset of N rows the GeoJSON export is a
FeatureCollection of exactly N features in row order; the i-th feature is a
`Point` whose coordinates are `[long, lat]` taken from the i-th row and
whose property keys are exactly the declared property list.  A row with
absent `lat`/`long` still yields its feature (the length and per-index
facts hold for every row, defined coordinates or not). -/
theorem C9_geojson_shape (rows : List CRow) (props : List String) :
    (dfToGeojson rows props).gjtype = "FeatureCollection" ∧
    (dfToGeojson rows props).features.length = rows.length ∧
    (∀ i : Nat, ((dfToGeojson rows props).features[i]?).map Feature.coordinates
        = (rows[i]?).map (fun r => [crowGet r "long", crowGet r "lat"])) ∧
    (∀ i : Nat, ((dfToGeojson rows props).features[i]?).map Feature.gtype
        = (rows[i]?).map (fun _ => "Point")) ∧
    (∀ i : Nat, ((dfToGeojson rows props).features[i]?).map (fun f => f.properties.map Prod.fst)
        = (rows[i]?).map (fun _ => props)) := by
  refine ⟨rfl, by simp [dfToGeojson], ?_, ?_, ?_⟩ <;> intro i <;>
    simp only [dfToGeojson, List.getElem?_map] <;>
    cases rows[i]? <;> simp [featureOf, List.map_map, Function.comp_def]

/-! ## Claim C10 -/

/-- C10.  The code-normalization block's error recovery is block-scoped and
not atomic: if the postal cast fails after a successful INSEE extraction,
the canonical `code_insee` and the INSEE-derived `departement` are
retained while `code_postal` stays absent for all rows; if the INSEE
extraction fails, the rest of the block is skipped, so `code_postal` and
`departement` stay absent too. -/
theorem C10_block_scope (vs es : List String) (ps : List (Option String))
    (h1 : allExtract vs = some es) (h2 : allToInt ps = none) :
    normalizeCodes false (some vs) (some ps) =
      ⟨some (es.map zfill5), none, some ((es.map zfill5).map prefix2)⟩ ∧
    (∀ vs' ps', allExtract vs' = none →
      normalizeCodes false (some vs') (some ps') = ⟨none, none, none⟩) := by
  constructor
  · simp [normalizeCodes, applyPostal, h1, h2]
  · intro vs' ps' h
    simp [normalizeCodes, h]

/-- C10, witness: INSEE `"75056"` with an uncastable (NaN) postal column
keeps `code_insee = "75056"` and `departement = "75"` with `code_postal`
absent; an unextractable INSEE value (`"abc"`) leaves all three columns
absent even though the postal value `"75001"` would cast. -/
theorem C10_witness :
    normalizeCodes false (some ["75056"]) (some [none])
      = ⟨some ["75056"], none, some ["75"]⟩ ∧
    normalizeCodes false (some ["abc"]) (some [some "75001"]) = ⟨none, none, none⟩ := by
  have h := C10_block_scope ["75056"] ["75056"] [none] (by decide) (by decide)
  constructor
  · rw [h.1]
    decide
  · exact h.2 ["abc"] [some "75001"] (by decide)

end SitesHS
